import Mathlib

/-!
SubSaver subscription-detection core: a shallow embedding.

This file embeds the detection pipeline of the SubSaver repository
(`models/pattern_detector.py` and `utils/visualizer.py`) in Lean and proves
the specification's claims about it.

Modelling conventions:
* a transaction table is a `List Txn`; a pandas `DataFrame` row becomes a
  structure, column values become fields;
* dates are day numbers (`ℤ`): the pipeline only ever subtracts dates, so a
  `datetime` is represented by its day count since the epoch;
* currency amounts and the interval arithmetic (`sum/len`, `30/avg`, `×0.15`)
  are exact rationals (`ℚ`), standing in for Python floats;
* a Python expression that can raise (`30 / avg_interval` with
  `avg_interval == 0.0` raises `ZeroDivisionError`) is modelled with
  `Option`: `none` is an escaped exception;
* `groupby` is modelled by the list of first-occurrence distinct keys plus a
  filter per key.  pandas sorts group keys, but no property below depends on
  the order in which groups are visited.
-/

namespace SubSaver

/-- Python's `pat in s` substring test on explicit character lists:
`containsSeq pat s` is true iff `pat` occurs contiguously inside `s`. -/
def startsSeq : List Char → List Char → Bool
  | [], _ => true
  | _ :: _, [] => false
  | p :: ps, c :: cs => p == c && startsSeq ps cs

/-- Substring occurrence test (Python `in` on strings). -/
def containsSeq : List Char → List Char → Bool
  | pat, [] => pat.isEmpty
  | pat, c :: cs => startsSeq pat (c :: cs) || containsSeq pat cs

/-- Python `keyword in description` for `String`s. -/
def strContains (hay needle : String) : Bool :=
  containsSeq needle.toList hay.toList

/-- One normalized transaction record: columns `{date, description, amount}`
produced by the upstream normalizer (`date` already a datetime, as a day
number). -/
structure Txn where
  date : ℤ
  description : String
  amount : ℚ
deriving DecidableEq, Repr

instance : Inhabited Txn := ⟨⟨0, "", 0⟩⟩

/-- Source `pattern_detector.py` line 9: the fixed subscription keyword list. -/
def subscriptionKeywords : List String :=
  ["subscription", "member", "monthly", "annual", "recurring",
   "netflix", "spotify", "hulu", "disney+", "amazon prime",
   "apple", "google", "microsoft", "adobe", "dropbox", "icloud",
   "hbo", "youtube", "paramount", "peacock", "crunchyroll",
   "gym", "fitness", "audible", "patreon", "onlyfans",
   "vpn", "domain", "hosting", "website", "cloud"]

/-- Source `pattern_detector.py` line 19: the ordered category → keywords mapping
(`self.categories`), as an explicit ordered association list (Python dicts
iterate in insertion order). -/
def categoriesList : List (String × List String) :=
  [("streaming", ["netflix", "hulu", "disney+", "hbo", "paramount+", "peacock", "youtube premium"]),
   ("music", ["spotify", "apple music", "tidal", "pandora", "deezer"]),
   ("cloud", ["dropbox", "google one", "icloud", "onedrive", "box"]),
   ("software", ["adobe", "microsoft", "autodesk", "notion", "canva pro"]),
   ("gaming", ["xbox", "playstation", "nintendo", "steam", "epic games"]),
   ("fitness", ["gym", "peloton", "fitness", "strava", "beachbody"]),
   ("news", ["nyt", "wsj", "washington post", "economist", "new yorker"]),
   ("other", [])]

/-- Python `any(keyword in description for keyword in keywords)`. -/
def kwAny (description : String) (kws : List String) : Bool :=
  kws.any (fun k => strContains description k)

/-- The loop body of `_categorize_subscription`: walk the ordered mapping,
return the first category whose keyword list matches. -/
def categorizeAux (description : String) : List (String × List String) → String
  | [] => "other"
  | (c, kws) :: rest =>
      if kwAny description kws then c else categorizeAux description rest

/-- Function `_categorize_subscription` (lines 87–95): lower-case the description,
first matching category in declaration order, default `"other"`. -/
def categorizeSubscription (description : String) : String :=
  categorizeAux description.toLower categoriesList

/-- Function `_find_keyword_matches` (lines 52–57): rows whose lower-cased description
contains some subscription keyword. -/
def findKeywordMatches (df : List Txn) : List Txn :=
  df.filter (fun t => kwAny t.description.toLower subscriptionKeywords)

/-- Stable insertion of a row into a date-ascending list (helper for
`sort_values('date')`). -/
def insertByDate (t : Txn) : List Txn → List Txn
  | [] => [t]
  | u :: rest => if t.date ≤ u.date then t :: u :: rest else u :: insertByDate t rest

/-- Pandas `group.sort_values('date')`: stable sort by date ascending. -/
def sortByDate : List Txn → List Txn
  | [] => []
  | t :: rest => insertByDate t (sortByDate rest)

/-- Python `[(dates[i+1] - dates[i]).days for i in range(len(dates)-1)]`. -/
def dayGaps : List ℤ → List ℤ
  | a :: b :: rest => (b - a) :: dayGaps (b :: rest)
  | _ => []

/-- Distinct keys in first-occurrence order (the key set of a pandas
`groupby`; pandas sorts keys, but no claim depends on group order). -/
def distinctKeys {α β : Type} [DecidableEq β] (f : α → β) (seen : List β) :
    List α → List β
  | [] => []
  | a :: l =>
      if f a ∈ seen then distinctKeys f seen l
      else f a :: distinctKeys f (f a :: seen) l

/-- Pandas `df.groupby(['description', 'amount'])` key list. -/
def pairKeys (df : List Txn) : List (String × ℚ) :=
  distinctKeys (fun t => (t.description, t.amount)) [] df

/-- The member rows of one `(description, amount)` group. -/
def pairGroup (df : List Txn) (k : String × ℚ) : List Txn :=
  df.filter (fun t => decide (t.description = k.1 ∧ t.amount = k.2))

/-- The consecutive day-gap list of a group after sorting by date
(lines 71–72 of `pattern_detector.py`). -/
def gapsOf (g : List Txn) : List ℤ :=
  dayGaps ((sortByDate g).map (fun t => t.date))

/-- Python `avg_interval = sum(intervals) / len(intervals)` as an exact rational. -/
def meanGap (g : List Txn) : ℚ :=
  (((gapsOf g).sum : ℤ) : ℚ) / ((gapsOf g).length : ℚ)

/-- Line 77: every gap within ±5 days of the mean gap. -/
def isConsistent (g : List Txn) : Prop :=
  ∀ i ∈ gapsOf g, |(i : ℚ) - meanGap g| ≤ 5

instance (g : List Txn) : Decidable (isConsistent g) := by
  unfold isConsistent; infer_instance

/-- Line 80: mean gap in the monthly `[25,35]` or annual `[350,380]` window. -/
def isSubscriptionPeriod (g : List Txn) : Prop :=
  (25 ≤ meanGap g ∧ meanGap g ≤ 35) ∨ (350 ≤ meanGap g ∧ meanGap g ≤ 380)

instance (g : List Txn) : Decidable (isSubscriptionPeriod g) := by
  unfold isSubscriptionPeriod; infer_instance

/-- The per-group body of `_find_recurring_patterns` (lines 66–83): groups
with ≥2 members whose gaps are consistent and whose mean gap is a
subscription period emit the earliest row (`sorted_group.iloc[0]`). -/
def emitGroup (g : List Txn) : Option Txn :=
  if 2 ≤ g.length then
    if 1 ≤ (gapsOf g).length then
      if isConsistent g ∧ isSubscriptionPeriod g then (sortByDate g).head?
      else none
    else none
  else none

/-- Function `_find_recurring_patterns` (lines 59–85). -/
def findRecurringPatterns (df : List Txn) : List Txn :=
  (pairKeys df).filterMap (fun k => emitGroup (pairGroup df k))

/-- Pandas `pd.concat(...).drop_duplicates()`: keep the first occurrence of every
full row. -/
def dropDuplicatesAux {α : Type} [DecidableEq α] (seen : List α) :
    List α → List α
  | [] => []
  | a :: l =>
      if a ∈ seen then dropDuplicatesAux seen l
      else a :: dropDuplicatesAux (a :: seen) l

/-- Pandas `drop_duplicates` on a transaction list (full-row equality). -/
def dropDuplicates {α : Type} [DecidableEq α] (l : List α) : List α :=
  dropDuplicatesAux [] l

/-- Lines 36–42 of `detect_subscriptions`: union of keyword matches and
recurring patterns, deduplicated by full-row equality. -/
def detectCandidates (df : List Txn) : List Txn :=
  dropDuplicates (findKeywordMatches df ++ findRecurringPatterns df)

/-- One row of the output Subscription table (candidate columns plus the
`category`, `monthly_cost`, `frequency`, `last_charge` columns added by
`detect_subscriptions` / `_calculate_monthly_cost`). -/
structure SubRow where
  date : ℤ
  description : String
  amount : ℚ
  category : String
  monthly_cost : ℚ
  frequency : String
  last_charge : ℤ
deriving DecidableEq, Repr

/-- Python 3 `round` on an exact rational: nearest integer, ties to even. -/
def pyRound (q : ℚ) : ℤ :=
  if q - (⌊q⌋ : ℚ) < 1/2 then ⌊q⌋
  else if (1/2 : ℚ) < q - (⌊q⌋ : ℚ) then ⌊q⌋ + 1
  else if ⌊q⌋ % 2 = 0 then ⌊q⌋ else ⌊q⌋ + 1

/-- The last element of a list, with the head as the running candidate
(`sorted_group.iloc[-1]`). -/
def lastTxnAux : Txn → List Txn → Txn
  | a, [] => a
  | _, b :: l => lastTxnAux b l

/-- Pandas `l.iloc[-1]` on a nonempty list (default row on the empty list, which the
pipeline never produces: every group holds at least one row). -/
def lastTxn (l : List Txn) : Txn :=
  match l with
  | [] => default
  | a :: r => lastTxnAux a r

/-- Pandas `sorted_group['date'].max()` (fold of `max` over the date column). -/
def colMaxDate (l : List Txn) : ℤ :=
  match l with
  | [] => 0
  | t :: r => r.foldl (fun acc u => max acc u.date) t.date

/-- The single-occurrence branch of `_calculate_monthly_cost`
(lines 143–149, and the structurally identical dead branch 136–142):
`frequency='unknown'`, `monthly_cost=amount`, `last_charge=date`.  The
`category` column was added from the description at line 45, before this
function runs; every row of a description group carries the same category,
so it is recomputed here from the row's own description. -/
def singleRow (t : Txn) : SubRow :=
  { date := t.date, description := t.description, amount := t.amount,
    category := categorizeSubscription t.description,
    monthly_cost := t.amount, frequency := "unknown", last_charge := t.date }

/-- The per-description-group body of `_calculate_monthly_cost`
(lines 106–149).  `none` models the `ZeroDivisionError` that
`amount * (30 / avg_interval)` raises when the mean gap is `0.0`
(duplicate-dated rows: neither window contains 0, so the division is
reached). -/
def costRow (g : List Txn) : Option SubRow :=
  if 2 ≤ g.length then
    if 2 ≤ (sortByDate g).length then
      if 25 ≤ meanGap g ∧ meanGap g ≤ 35 then
        some { date := (lastTxn (sortByDate g)).date,
               description := (lastTxn (sortByDate g)).description,
               amount := (lastTxn (sortByDate g)).amount,
               category := categorizeSubscription (lastTxn (sortByDate g)).description,
               monthly_cost := (lastTxn (sortByDate g)).amount,
               frequency := "monthly",
               last_charge := colMaxDate (sortByDate g) }
      else if 350 ≤ meanGap g ∧ meanGap g ≤ 380 then
        some { date := (lastTxn (sortByDate g)).date,
               description := (lastTxn (sortByDate g)).description,
               amount := (lastTxn (sortByDate g)).amount,
               category := categorizeSubscription (lastTxn (sortByDate g)).description,
               monthly_cost := (lastTxn (sortByDate g)).amount / 12,
               frequency := "annual",
               last_charge := colMaxDate (sortByDate g) }
      else if meanGap g = 0 then none
      else
        some { date := (lastTxn (sortByDate g)).date,
               description := (lastTxn (sortByDate g)).description,
               amount := (lastTxn (sortByDate g)).amount,
               category := categorizeSubscription (lastTxn (sortByDate g)).description,
               monthly_cost := (lastTxn (sortByDate g)).amount * (30 / meanGap g),
               frequency := "every " ++ toString (pyRound (meanGap g)) ++ " days",
               last_charge := colMaxDate (sortByDate g) }
    else g.head?.map singleRow
  else g.head?.map singleRow

/-- Pandas `df.groupby('description')` key list. -/
def descKeys (df : List Txn) : List String :=
  distinctKeys (fun t => t.description) [] df

/-- The member rows of one description group. -/
def descGroup (df : List Txn) (d : String) : List Txn :=
  df.filter (fun t => decide (t.description = d))

/-- The `results` accumulation loop of `_calculate_monthly_cost`: one row per
description group; `none` as soon as any group raises. -/
def collectRows (cands : List Txn) : List String → Option (List SubRow)
  | [] => some []
  | d :: ds =>
      match costRow (descGroup cands d), collectRows cands ds with
      | some r, some rs => some (r :: rs)
      | _, _ => none

/-- Function `_calculate_monthly_cost` (lines 97–151). -/
def calculateMonthlyCost (cands : List Txn) : Option (List SubRow) :=
  collectRows cands (descKeys cands)

/-- Function `detect_subscriptions` (lines 30–50) on an already-normalized table:
keyword matches ∪ recurring patterns, dedupe, categorize, monthly cost.
`none` models an escaped `ZeroDivisionError`. -/
def detectSubscriptions (df : List Txn) : Option (List SubRow) :=
  calculateMonthlyCost (detectCandidates df)

/-- A savings-opportunity record (`visualizer.py`, `savings_opportunities`):
one constructor per emitted dict shape.  The human-readable
`recommendation` strings are presentational text not examined by any
property and are not modelled. -/
inductive Opportunity where
  | duplicateCategory (category : String) (subscriptions : List String)
      (monthly_cost : ℚ)
  | annualDiscount (subscription : String) (monthly_cost : ℚ)
      (annual_savings : ℚ)
deriving DecidableEq, Repr

/-- Pandas `subscriptions_df.groupby('category')` key list. -/
def categoryKeys (df : List SubRow) : List String :=
  distinctKeys (fun s => s.category) [] df

/-- The member rows of one category group. -/
def categoryGroup (df : List SubRow) (c : String) : List SubRow :=
  df.filter (fun s => decide (s.category = c))

/-- Function `savings_opportunities` (`visualizer.py` lines 134–171): one
duplicate-category opportunity per category with more than one member,
then one annual-discount opportunity per monthly subscription whose
potential savings `monthly_cost * 12 * 0.15` exceeds 20. -/
def savingsOpportunities (df : List SubRow) : List Opportunity :=
  ((categoryKeys df).filter
      (fun c => decide (1 < (categoryGroup df c).length))).map
    (fun c => Opportunity.duplicateCategory c
        ((categoryGroup df c).map (fun s => s.description))
        (((categoryGroup df c).map (fun s => s.monthly_cost)).sum)) ++
  (df.filter (fun s => decide (s.frequency = "monthly"))).filterMap
    (fun s =>
      if 20 < s.monthly_cost * 12 * (15 / 100) then
        some (Opportunity.annualDiscount s.description s.monthly_cost
          (s.monthly_cost * 12 * (15 / 100)))
      else none)

/-- Recognizer for a duplicate-category opportunity of a given category
(used to count emissions per category). -/
def isDupFor (c : String) : Opportunity → Bool
  | Opportunity.duplicateCategory c' _ _ => decide (c' = c)
  | _ => false

/-!
Section: The raw table and the in-place date coercion

`detect_subscriptions` begins with
`transactions_df['date'] = pd.to_datetime(transactions_df['date'])` —
an in-place assignment on the caller's table.  To reason about that side
effect we model the table as the caller holds it: a date cell is either a
raw string (as read from a CSV) or an already-parsed datetime.
-/

/-- A `date` column cell before normalization. -/
inductive DateCell where
  | raw (s : String)
  | dt (n : ℤ)
deriving DecidableEq, Repr

/-- A transaction row as the caller holds it (date possibly unparsed). -/
structure RawTxn where
  date : DateCell
  description : String
  amount : ℚ
deriving DecidableEq, Repr

/-- Days since 1970-01-01 of a civil date (proleptic Gregorian). -/
def daysFromCivil (y m d : ℤ) : ℤ :=
  (if m ≤ 2 then y - 1 else y) * 365
    + Int.fdiv (if m ≤ 2 then y - 1 else y) 4
    - Int.fdiv (if m ≤ 2 then y - 1 else y) 100
    + Int.fdiv (if m ≤ 2 then y - 1 else y) 400
    + Int.fdiv (153 * (Int.emod (m + 9) 12) + 2) 5 + d - 1
    - 719468

/-- Digit-string to number (`none` on a non-digit or the empty string). -/
def parseNatAux : List Char → ℕ → Option ℕ
  | [], acc => some acc
  | c :: r, acc =>
      if c.isDigit then parseNatAux r (acc * 10 + (c.toNat - 48)) else none

/-- Parse a nonempty all-digit string. -/
def parseNatDigits (cs : List Char) : Option ℕ :=
  if cs.isEmpty then none else parseNatAux cs 0

/-- Pandas `pd.to_datetime` on one ISO `YYYY-MM-DD` string: the day number, or
`none` for a malformed value (pandas raises there). -/
def parseISO (s : String) : Option ℤ :=
  match s.splitOn "-" with
  | [ys, ms, ds] =>
      match parseNatDigits ys.toList, parseNatDigits ms.toList,
          parseNatDigits ds.toList with
      | some y, some m, some d => some (daysFromCivil y m d)
      | _, _, _ => none
  | _ => none

/-- Pandas `pd.to_datetime` on one cell: parses raw strings, passes datetimes
through unchanged. -/
def toDatetimeCell : DateCell → Option DateCell
  | DateCell.raw s => (parseISO s).map DateCell.dt
  | DateCell.dt n => some (DateCell.dt n)

/-- The column assignment
`transactions_df['date'] = pd.to_datetime(transactions_df['date'])`:
the table with every date cell coerced (`none` when pandas raises, in which
case the assignment does not happen and the table is untouched). -/
def normalizeDates : List RawTxn → Option (List RawTxn)
  | [] => some []
  | t :: r =>
      match toDatetimeCell t.date, normalizeDates r with
      | some c, some rest => some ({ t with date := c } :: rest)
      | _, _ => none

/-- Project a normalized row to the core transaction record. -/
def rawToTxn (t : RawTxn) : Txn :=
  { date := match t.date with | DateCell.raw _ => 0 | DateCell.dt n => n,
    description := t.description, amount := t.amount }

/-- Function `detect_subscriptions` as the caller observes it: the pair of the
mutated input table and the returned Subscription table.  Outer `none`:
`to_datetime` raised; inner `none`: a `ZeroDivisionError` escaped after
the mutation. -/
def detectSubscriptionsRaw (df : List RawTxn) :
    Option (List RawTxn × Option (List SubRow)) :=
  match normalizeDates df with
  | none => none
  | some nd => some (nd, detectSubscriptions (nd.map rawToTxn))

/-- Pandas `sorted_group.iloc[0]`: the earliest row of a group (first row of the
date-sorted group). -/
def firstTxn (g : List Txn) : Txn :=
  (sortByDate g).headD default

/-- The description groups inside `_calculate_monthly_cost`, taken over the
combined candidate set of `detect_subscriptions`. -/
def candGroup (df : List Txn) (d : String) : List Txn :=
  descGroup (detectCandidates df) d

/-!
Section: General lemmas about the list operations
-/

theorem insertByDate_perm (t : Txn) (l : List Txn) :
    List.Perm (insertByDate t l) (t :: l) := by
  induction l with
  | nil => simp [insertByDate]
  | cons u rest ih =>
      by_cases h : t.date ≤ u.date
      · simp [insertByDate, h]
      · simp only [insertByDate, if_neg h]
        exact (ih.cons u).trans (List.Perm.swap t u rest)

theorem sortByDate_perm (l : List Txn) : List.Perm (sortByDate l) l := by
  induction l with
  | nil => simp [sortByDate]
  | cons t rest ih =>
      exact (insertByDate_perm t (sortByDate rest)).trans (ih.cons t)

theorem sortByDate_length (l : List Txn) :
    (sortByDate l).length = l.length :=
  (sortByDate_perm l).length_eq

theorem mem_sortByDate {l : List Txn} {t : Txn} :
    t ∈ sortByDate l ↔ t ∈ l :=
  (sortByDate_perm l).mem_iff

theorem dayGaps_length : ∀ l : List ℤ, (dayGaps l).length = l.length - 1
  | [] => rfl
  | [_] => rfl
  | a :: b :: rest => by
      have h := dayGaps_length (b :: rest)
      simp only [dayGaps, List.length_cons] at h ⊢
      omega

theorem lastTxnAux_mem : ∀ (a : Txn) (l : List Txn), lastTxnAux a l ∈ a :: l
  | a, [] => by simp [lastTxnAux]
  | _, b :: l => by
      simpa [lastTxnAux] using List.mem_cons_of_mem _ (lastTxnAux_mem b l)

theorem lastTxn_mem {l : List Txn} (h : l ≠ []) : lastTxn l ∈ l := by
  match l with
  | [] => exact absurd rfl h
  | a :: r => exact lastTxnAux_mem a r

theorem firstTxn_mem {g : List Txn} (h : g ≠ []) : firstTxn g ∈ g := by
  have hne : sortByDate g ≠ [] := by
    intro hnil
    have := sortByDate_length g
    rw [hnil] at this
    exact h (List.length_eq_zero.mp this.symm)
  match hs : sortByDate g with
  | [] => exact absurd hs hne
  | a :: r =>
      have : firstTxn g = a := by simp [firstTxn, hs]
      rw [this, ← mem_sortByDate, hs]
      exact List.mem_cons_self a r

theorem mem_dropDuplicatesAux {α : Type} [DecidableEq α]
    (seen : List α) (l : List α) (x : α) :
    x ∈ dropDuplicatesAux seen l ↔ x ∈ l ∧ x ∉ seen := by
  induction l generalizing seen with
  | nil => simp [dropDuplicatesAux]
  | cons a l ih =>
      by_cases h : a ∈ seen
      · simp only [dropDuplicatesAux, if_pos h, ih, List.mem_cons]
        constructor
        · rintro ⟨hx, hs⟩
          exact ⟨Or.inr hx, hs⟩
        · rintro ⟨hx | hx, hs⟩
          · exact absurd (hx ▸ h) hs
          · exact ⟨hx, hs⟩
      · simp only [dropDuplicatesAux, if_neg h, List.mem_cons, ih]
        constructor
        · rintro (rfl | ⟨hx, hs⟩)
          · exact ⟨Or.inl rfl, h⟩
          · exact ⟨Or.inr hx, fun hc => hs (Or.inr hc)⟩
        · rintro ⟨rfl | hx, hs⟩
          · exact Or.inl rfl
          · by_cases hxa : x = a
            · exact Or.inl hxa
            · refine Or.inr ⟨hx, fun hc => ?_⟩
              rcases hc with h1 | h1
              · exact hxa h1
              · exact hs h1

theorem mem_dropDuplicates {α : Type} [DecidableEq α] (l : List α) (x : α) :
    x ∈ dropDuplicates l ↔ x ∈ l := by
  simp [dropDuplicates, mem_dropDuplicatesAux]

theorem nodup_dropDuplicatesAux {α : Type} [DecidableEq α]
    (seen : List α) (l : List α) :
    (dropDuplicatesAux seen l).Nodup := by
  induction l generalizing seen with
  | nil => simp [dropDuplicatesAux]
  | cons a l ih =>
      by_cases h : a ∈ seen
      · simpa [dropDuplicatesAux, if_pos h] using ih seen
      · simp only [dropDuplicatesAux, if_neg h, List.nodup_cons]
        refine ⟨fun hmem => ?_, ih (a :: seen)⟩
        exact ((mem_dropDuplicatesAux _ _ _).mp hmem).2 (List.mem_cons_self a seen)

theorem mem_distinctKeys {α β : Type} [DecidableEq β] (f : α → β)
    (seen : List β) (l : List α) (b : β) :
    b ∈ distinctKeys f seen l ↔ b ∈ l.map f ∧ b ∉ seen := by
  induction l generalizing seen with
  | nil => simp [distinctKeys]
  | cons a l ih =>
      by_cases h : f a ∈ seen
      · simp only [distinctKeys, if_pos h, ih, List.map_cons, List.mem_cons]
        constructor
        · rintro ⟨hx, hs⟩
          exact ⟨Or.inr hx, hs⟩
        · rintro ⟨hx | hx, hs⟩
          · exact absurd (hx ▸ h) hs
          · exact ⟨hx, hs⟩
      · simp only [distinctKeys, if_neg h, List.map_cons, List.mem_cons, ih]
        constructor
        · rintro (rfl | ⟨hx, hs⟩)
          · exact ⟨Or.inl rfl, h⟩
          · exact ⟨Or.inr hx, fun hc => hs (Or.inr hc)⟩
        · rintro ⟨rfl | hx, hs⟩
          · exact Or.inl rfl
          · by_cases hxa : b = f a
            · exact Or.inl hxa
            · refine Or.inr ⟨hx, fun hc => ?_⟩
              rcases hc with h1 | h1
              · exact hxa h1
              · exact hs h1

theorem nodup_distinctKeys {α β : Type} [DecidableEq β] (f : α → β)
    (seen : List β) (l : List α) :
    (distinctKeys f seen l).Nodup := by
  induction l generalizing seen with
  | nil => simp [distinctKeys]
  | cons a l ih =>
      by_cases h : f a ∈ seen
      · simpa [distinctKeys, if_pos h] using ih seen
      · simp only [distinctKeys, if_neg h, List.nodup_cons]
        refine ⟨fun hmem => ?_, ih (f a :: seen)⟩
        exact ((mem_distinctKeys _ _ _ _).mp hmem).2 (List.mem_cons_self _ seen)

theorem mem_descGroup {df : List Txn} {d : String} {t : Txn} :
    t ∈ descGroup df d ↔ t ∈ df ∧ t.description = d := by
  simp [descGroup, List.mem_filter]

theorem mem_pairGroup {df : List Txn} {k : String × ℚ} {t : Txn} :
    t ∈ pairGroup df k ↔ t ∈ df ∧ t.description = k.1 ∧ t.amount = k.2 := by
  simp [pairGroup, List.mem_filter]

theorem mem_categoryGroup {df : List SubRow} {c : String} {s : SubRow} :
    s ∈ categoryGroup df c ↔ s ∈ df ∧ s.category = c := by
  simp [categoryGroup, List.mem_filter]

/-!
Section: Lemmas about the Recurrence Analyzer
-/

theorem gapsOf_length (g : List Txn) : (gapsOf g).length = g.length - 1 := by
  unfold gapsOf
  rw [dayGaps_length, List.length_map, sortByDate_length]

theorem emitGroup_of_two_le {g : List Txn} (h2 : 2 ≤ g.length) :
    emitGroup g =
      if isConsistent g ∧ isSubscriptionPeriod g then some (firstTxn g)
      else none := by
  have hgaps : 1 ≤ (gapsOf g).length := by
    rw [gapsOf_length]; omega
  unfold emitGroup
  rw [if_pos h2, if_pos hgaps]
  split_ifs with hc
  · have hlen : 2 ≤ (sortByDate g).length := by rw [sortByDate_length]; exact h2
    match hs : sortByDate g with
    | [] => rw [hs] at hlen; simp at hlen
    | a :: r => simp [firstTxn, hs]
  · rfl

theorem emitGroup_none_of_small {g : List Txn} (h : g.length ≤ 1) :
    emitGroup g = none := by
  unfold emitGroup
  rw [if_neg]
  omega

theorem emitGroup_eq_some {g : List Txn} {t : Txn} (h : emitGroup g = some t) :
    t = firstTxn g ∧ t ∈ g ∧ 2 ≤ g.length ∧ isConsistent g ∧
      isSubscriptionPeriod g := by
  by_cases h2 : 2 ≤ g.length
  · rw [emitGroup_of_two_le h2] at h
    split_ifs at h with hc
    · have ht : t = firstTxn g := (Option.some_inj.mp h).symm
      have hne : g ≠ [] := by
        intro hnil; rw [hnil] at h2; simp at h2
      exact ⟨ht, ht ▸ firstTxn_mem hne, h2, hc⟩
  · rw [emitGroup_none_of_small (by omega)] at h
    exact absurd h (by simp)

theorem mem_findRecurringPatterns {df : List Txn} {t : Txn} :
    t ∈ findRecurringPatterns df ↔
      ∃ k ∈ pairKeys df, emitGroup (pairGroup df k) = some t := by
  simp [findRecurringPatterns, List.mem_filterMap]

/-!
Section: Lemmas about `_calculate_monthly_cost`
-/

theorem costRow_singleton (t : Txn) : costRow [t] = some (singleRow t) := by
  unfold costRow
  rw [if_neg (by simp)]
  rfl

theorem costRow_some_desc {g : List Txn} {r : SubRow}
    (h : costRow g = some r) : ∃ t ∈ g, r.description = t.description := by
  unfold costRow at h
  split_ifs at h with h2 hs hm ha hz
  · refine ⟨lastTxn (sortByDate g), ?_, ?_⟩
    · rw [← mem_sortByDate]
      refine lastTxn_mem (fun hnil => ?_)
      rw [hnil] at hs; simp at hs
    · exact (Option.some_inj.mp h) ▸ rfl
  · refine ⟨lastTxn (sortByDate g), ?_, ?_⟩
    · rw [← mem_sortByDate]
      refine lastTxn_mem (fun hnil => ?_)
      rw [hnil] at hs; simp at hs
    · exact (Option.some_inj.mp h) ▸ rfl
  · refine ⟨lastTxn (sortByDate g), ?_, ?_⟩
    · rw [← mem_sortByDate]
      refine lastTxn_mem (fun hnil => ?_)
      rw [hnil] at hs; simp at hs
    · exact (Option.some_inj.mp h) ▸ rfl
  · match g with
    | [] => simp at h
    | a :: l =>
        refine ⟨a, List.mem_cons_self a l, ?_⟩
        simp only [List.head?_cons, Option.map_some] at h
        exact (Option.some_inj.mp h) ▸ rfl
  · match g with
    | [] => simp at h
    | a :: l =>
        refine ⟨a, List.mem_cons_self a l, ?_⟩
        simp only [List.head?_cons, Option.map_some] at h
        exact (Option.some_inj.mp h) ▸ rfl

theorem costRow_desc {cands : List Txn} {d : String} {r : SubRow}
    (h : costRow (descGroup cands d) = some r) : r.description = d := by
  obtain ⟨t, ht, hd⟩ := costRow_some_desc h
  rw [hd, (mem_descGroup.mp ht).2]

theorem collectRows_eq_some {cands : List Txn} :
    ∀ {ds : List String} {rs : List SubRow},
      collectRows cands ds = some rs →
      rs.map (fun r => r.description) = ds ∧
        ∀ r ∈ rs, costRow (descGroup cands r.description) = some r := by
  intro ds
  induction ds with
  | nil =>
      intro rs h
      simp only [collectRows] at h
      rw [← Option.some_inj.mp h]
      exact ⟨rfl, by simp⟩
  | cons d ds ih =>
      intro rs h
      simp only [collectRows] at h
      match hc : costRow (descGroup cands d), hrest : collectRows cands ds with
      | some r, some rs' =>
          rw [hc, hrest] at h
          obtain ⟨ihmap, ihall⟩ := ih hrest
          have hr : rs = r :: rs' := (Option.some_inj.mp h).symm
          subst hr
          have hd : r.description = d := costRow_desc hc
          refine ⟨by simp [ihmap, hd], ?_⟩
          intro x hx
          rcases List.mem_cons.mp hx with rfl | hx'
          · rw [hd]; exact hc
          · exact ihall x hx'
      | some _, none => rw [hc, hrest] at h; exact absurd h (by simp)
      | none, some _ => rw [hc, hrest] at h; exact absurd h (by simp)
      | none, none => rw [hc, hrest] at h; exact absurd h (by simp)

theorem detect_mem_costRow {df : List Txn} {rows : List SubRow} {r : SubRow}
    (h : detectSubscriptions df = some rows) (hr : r ∈ rows) :
    costRow (candGroup df r.description) = some r :=
  (collectRows_eq_some h).2 r hr

theorem detect_map_desc {df : List Txn} {rows : List SubRow}
    (h : detectSubscriptions df = some rows) :
    rows.map (fun r => r.description) = descKeys (detectCandidates df) :=
  (collectRows_eq_some h).1

theorem costRow_monthly {g : List Txn} {r : SubRow} (h : costRow g = some r)
    (h2 : 2 ≤ g.length) (hm : 25 ≤ meanGap g ∧ meanGap g ≤ 35) :
    r.frequency = "monthly" ∧
      r.monthly_cost = (lastTxn (sortByDate g)).amount := by
  have hs : 2 ≤ (sortByDate g).length := by rw [sortByDate_length]; exact h2
  unfold costRow at h
  rw [if_pos h2, if_pos hs, if_pos hm] at h
  rw [← Option.some_inj.mp h]
  exact ⟨rfl, rfl⟩

theorem costRow_annual {g : List Txn} {r : SubRow} (h : costRow g = some r)
    (h2 : 2 ≤ g.length) (hnm : ¬(25 ≤ meanGap g ∧ meanGap g ≤ 35))
    (ha : 350 ≤ meanGap g ∧ meanGap g ≤ 380) :
    r.frequency = "annual" ∧
      r.monthly_cost = (lastTxn (sortByDate g)).amount / 12 := by
  have hs : 2 ≤ (sortByDate g).length := by rw [sortByDate_length]; exact h2
  unfold costRow at h
  rw [if_pos h2, if_pos hs, if_neg hnm, if_pos ha] at h
  rw [← Option.some_inj.mp h]
  exact ⟨rfl, rfl⟩

theorem costRow_custom {g : List Txn} {r : SubRow} (h : costRow g = some r)
    (h2 : 2 ≤ g.length) (hnm : ¬(25 ≤ meanGap g ∧ meanGap g ≤ 35))
    (hna : ¬(350 ≤ meanGap g ∧ meanGap g ≤ 380)) :
    r.frequency = "every " ++ toString (pyRound (meanGap g)) ++ " days" ∧
      r.monthly_cost = (lastTxn (sortByDate g)).amount * (30 / meanGap g) := by
  have hs : 2 ≤ (sortByDate g).length := by rw [sortByDate_length]; exact h2
  unfold costRow at h
  rw [if_pos h2, if_pos hs, if_neg hnm, if_neg hna] at h
  split_ifs at h with hz
  rw [← Option.some_inj.mp h]
  exact ⟨rfl, rfl⟩

theorem costRow_single {cands : List Txn} {d : String} {r : SubRow} {t : Txn}
    (h : costRow (descGroup cands d) = some r) (h1 : descGroup cands d = [t]) :
    r = singleRow t := by
  rw [h1, costRow_singleton] at h
  exact (Option.some_inj.mp h).symm

/-!
Section: The claims
-/

/-- C1: the spec requires a zero mean-gap (duplicate-dated rows of one
description) to be guarded and mapped to frequency `"unknown"`.  The code is
not guarded: on two same-day, same-description candidate rows the mean gap
is `0.0`, neither period window matches, and
`amount * (30 / avg_interval)` raises `ZeroDivisionError` — modelled here
as `detect_subscriptions` returning `none` instead of a Subscription
table. -/
theorem c1_zero_gap_division :
    detectSubscriptions
        [{ date := 0, description := "netflix", amount := 10 },
         { date := 0, description := "netflix", amount := 12 }] = none := by
  with_unfolding_all decide

/-- C3: a `(description, amount)` group of at least two rows contributes its
earliest row to `_find_recurring_patterns` exactly when every gap is within
5 days of the mean gap and the mean gap lies in `[25,35] ∪ [350,380]`;
single-occurrence groups contribute nothing. -/
theorem c3_recurrence_analyzer (df : List Txn) (k : String × ℚ)
    (hk : k ∈ pairKeys df) :
    (2 ≤ (pairGroup df k).length →
      (firstTxn (pairGroup df k) ∈ findRecurringPatterns df ↔
        isConsistent (pairGroup df k) ∧ isSubscriptionPeriod (pairGroup df k)))
    ∧ ((pairGroup df k).length = 1 →
      ∀ t ∈ pairGroup df k, t ∉ findRecurringPatterns df) := by
  constructor
  · intro h2
    constructor
    · intro hmem
      obtain ⟨k', _, hemit⟩ := mem_findRecurringPatterns.mp hmem
      obtain ⟨_, hmem', _, hcons', hper'⟩ := emitGroup_eq_some hemit
      have hne : pairGroup df k ≠ [] := by
        intro hnil; rw [hnil] at h2; simp at h2
      have hft := mem_pairGroup.mp (firstTxn_mem hne)
      have hft' := mem_pairGroup.mp hmem'
      have hkk : k' = k := by
        have h1 : k'.1 = k.1 := by rw [← hft'.2.1, hft.2.1]
        have h2' : k'.2 = k.2 := by rw [← hft'.2.2, hft.2.2]
        exact Prod.ext h1 h2'
      rw [hkk] at hcons' hper'
      exact ⟨hcons', hper'⟩
    · intro hcond
      refine mem_findRecurringPatterns.mpr ⟨k, hk, ?_⟩
      rw [emitGroup_of_two_le h2, if_pos hcond]
  · intro h1 t ht hout
    obtain ⟨k', _, hemit⟩ := mem_findRecurringPatterns.mp hout
    obtain ⟨_, hmem', hlen', _, _⟩ := emitGroup_eq_some hemit
    have hkk : k' = k := by
      have ha := mem_pairGroup.mp hmem'
      have hb := mem_pairGroup.mp ht
      exact Prod.ext (by rw [← ha.2.1, hb.2.1]) (by rw [← ha.2.2, hb.2.2])
    rw [hkk] at hlen'
    omega

/-- C2: in the emitted Subscription of a description with at least two
occurrences among the combined candidates, a mean day-gap in `[25,35]` gives
frequency `"monthly"` with the most recent amount as monthly cost, a mean
gap in `[350,380]` gives `"annual"` with the most recent amount divided
by 12, and any other mean gap gives the most recent amount times
`30 / mean gap`.  (The most recent amount is the amount of the last row of
the date-sorted group, `sorted_group['amount'].iloc[-1]`.) -/
theorem c2_monthly_cost (df : List Txn) (rows : List SubRow) (r : SubRow)
    (h : detectSubscriptions df = some rows) (hr : r ∈ rows)
    (h2 : 2 ≤ (candGroup df r.description).length) :
    (25 ≤ meanGap (candGroup df r.description) ∧
        meanGap (candGroup df r.description) ≤ 35 →
      r.frequency = "monthly" ∧
        r.monthly_cost =
          (lastTxn (sortByDate (candGroup df r.description))).amount)
    ∧ (350 ≤ meanGap (candGroup df r.description) ∧
        meanGap (candGroup df r.description) ≤ 380 →
      r.frequency = "annual" ∧
        r.monthly_cost =
          (lastTxn (sortByDate (candGroup df r.description))).amount / 12)
    ∧ (¬(25 ≤ meanGap (candGroup df r.description) ∧
          meanGap (candGroup df r.description) ≤ 35) →
      ¬(350 ≤ meanGap (candGroup df r.description) ∧
          meanGap (candGroup df r.description) ≤ 380) →
      r.monthly_cost =
        (lastTxn (sortByDate (candGroup df r.description))).amount *
          (30 / meanGap (candGroup df r.description))) := by
  have hc := detect_mem_costRow h hr
  refine ⟨fun hm => costRow_monthly hc h2 hm, fun ha => ?_, fun hnm hna => ?_⟩
  · have hnm : ¬(25 ≤ meanGap (candGroup df r.description) ∧
        meanGap (candGroup df r.description) ≤ 35) := by
      rintro ⟨_, h35⟩
      have := ha.1
      linarith
    exact costRow_annual hc h2 hnm ha
  · exact (costRow_custom hc h2 hnm hna).2

/-- C4: whenever the pipeline returns a Subscription table, that table has
exactly one row per distinct description occurring in the union of
keyword-matched and recurrence-matched candidates, and no two rows share a
description. -/
theorem c4_unique_descriptions (df : List Txn) (rows : List SubRow)
    (h : detectSubscriptions df = some rows) :
    (rows.map (fun r => r.description)).Nodup ∧
      ∀ d, d ∈ rows.map (fun r => r.description) ↔
        d ∈ (findKeywordMatches df ++ findRecurringPatterns df).map
          (fun t => t.description) := by
  have hmap := detect_map_desc h
  constructor
  · rw [hmap]
    exact nodup_distinctKeys _ _ _
  · intro d
    rw [hmap]
    unfold descKeys
    rw [mem_distinctKeys]
    simp only [List.not_mem_nil, not_false_iff, and_true]
    constructor
    · intro hd
      obtain ⟨t, ht, rfl⟩ := List.mem_map.mp hd
      have := (mem_dropDuplicates _ t).mp ht
      exact List.mem_map.mpr ⟨t, this, rfl⟩
    · intro hd
      obtain ⟨t, ht, rfl⟩ := List.mem_map.mp hd
      exact List.mem_map.mpr ⟨t, (mem_dropDuplicates _ t).mpr ht, rfl⟩

/-- C9: a description occurring exactly once among the combined candidates
is emitted with frequency `"unknown"`, monthly cost equal to that single
transaction's amount, and last charge equal to its date. -/
theorem c9_single_occurrence (df : List Txn) (rows : List SubRow)
    (r : SubRow) (t : Txn) (h : detectSubscriptions df = some rows)
    (hr : r ∈ rows) (h1 : candGroup df r.description = [t]) :
    r.frequency = "unknown" ∧ r.monthly_cost = t.amount ∧
      r.last_charge = t.date := by
  have hc := detect_mem_costRow h hr
  have := costRow_single hc h1
  rw [this]
  exact ⟨rfl, rfl, rfl⟩

/-- C10: every row of a returned Subscription table has a frequency that is
monthly, annual, unknown, or a custom interval `"every N days"`. -/
theorem c10_frequency_enum (df : List Txn) (rows : List SubRow)
    (h : detectSubscriptions df = some rows) :
    ∀ r ∈ rows, r.frequency = "monthly" ∨ r.frequency = "annual" ∨
      r.frequency = "unknown" ∨
      ∃ n : ℤ, r.frequency = "every " ++ toString n ++ " days" := by
  intro r hr
  have hc := detect_mem_costRow h hr
  by_cases h2 : 2 ≤ (candGroup df r.description).length
  · by_cases hm : 25 ≤ meanGap (candGroup df r.description) ∧
        meanGap (candGroup df r.description) ≤ 35
    · exact Or.inl (costRow_monthly hc h2 hm).1
    · by_cases ha : 350 ≤ meanGap (candGroup df r.description) ∧
          meanGap (candGroup df r.description) ≤ 380
      · exact Or.inr (Or.inl (costRow_annual hc h2 hm ha).1)
      · exact Or.inr (Or.inr (Or.inr
          ⟨pyRound (meanGap (candGroup df r.description)),
            (costRow_custom hc h2 hm ha).1⟩))
  · refine Or.inr (Or.inr (Or.inl ?_))
    unfold costRow at hc
    rw [if_neg h2] at hc
    match hg : candGroup df r.description with
    | [] => rw [hg] at hc; simp at hc
    | a :: l =>
        rw [hg] at hc
        simp only [List.head?_cons, Option.map_some] at hc
        rw [← Option.some_inj.mp hc]
        rfl

/-- C5: `savings_opportunities` emits an annual-discount opportunity for a
subscription exactly when its frequency is `"monthly"` and
`monthly_cost × 12 × 0.15 > 20`, and the emitted `annual_savings` is that
product. -/
theorem c5_annual_discount (df : List SubRow) :
    (∀ s ∈ df, s.frequency = "monthly" →
      20 < s.monthly_cost * 12 * (15 / 100) →
      Opportunity.annualDiscount s.description s.monthly_cost
          (s.monthly_cost * 12 * (15 / 100)) ∈ savingsOpportunities df)
    ∧ ∀ sub mc sav,
        Opportunity.annualDiscount sub mc sav ∈ savingsOpportunities df →
        ∃ s ∈ df, s.frequency = "monthly" ∧
          20 < s.monthly_cost * 12 * (15 / 100) ∧ sub = s.description ∧
          mc = s.monthly_cost ∧ sav = s.monthly_cost * 12 * (15 / 100) := by
  constructor
  · intro s hs hfreq h20
    refine List.mem_append_right _ ?_
    refine List.mem_filterMap.mpr ⟨s, ?_, ?_⟩
    · exact List.mem_filter.mpr ⟨hs, by simp [hfreq]⟩
    · rw [if_pos h20]
  · intro sub mc sav hmem
    rcases List.mem_append.mp hmem with hdup | hann
    · obtain ⟨c, _, habs⟩ := List.mem_map.mp hdup
      exact absurd habs (by simp)
    · obtain ⟨s, hsf, hif⟩ := List.mem_filterMap.mp hann
      have hs := List.mem_filter.mp hsf
      have hfreq : s.frequency = "monthly" := by
        have := hs.2; simpa using this
      split_ifs at hif with h20
      obtain ⟨h1, h2, h3⟩ := Opportunity.annualDiscount.inj
        (Option.some_inj.mp hif)
      exact ⟨s, hs.1, hfreq, h20, h1.symm, h2.symm, h3.symm⟩

/-- Counting helper: in a duplicate-free list of keys, the number of
occurrences of one key is 1 or 0 according to membership. -/
theorem countP_key_nodup (l : List String) (hl : l.Nodup) (c : String) :
    l.countP (fun x => decide (x = c)) = if c ∈ l then 1 else 0 := by
  induction l with
  | nil => simp
  | cons a l ih =>
      obtain ⟨hna, hnd⟩ := List.nodup_cons.mp hl
      rw [List.countP_cons]
      by_cases hac : a = c
      · subst hac
        rw [ih hnd, if_neg hna, if_pos (List.mem_cons_self a l)]
        simp
      · rw [ih hnd]
        simp only [List.mem_cons]
        have : (c = a ∨ c ∈ l) ↔ c ∈ l := by
          constructor
          · rintro (rfl | hc)
            · exact absurd rfl hac
            · exact hc
          · exact Or.inr
        rw [if_congr this rfl rfl]
        simp [hac]

/-- A category with a nonempty group occurs among the category keys. -/
theorem mem_categoryKeys_of_group {df : List SubRow} {c : String}
    (h : 1 ≤ (categoryGroup df c).length) : c ∈ categoryKeys df := by
  have hne : categoryGroup df c ≠ [] := by
    intro hnil; rw [hnil] at h; simp at h
  obtain ⟨s, hs⟩ := List.exists_mem_of_ne_nil _ hne
  obtain ⟨hdf, hcat⟩ := mem_categoryGroup.mp hs
  unfold categoryKeys
  rw [mem_distinctKeys]
  exact ⟨List.mem_map.mpr ⟨s, hdf, hcat⟩, List.not_mem_nil c⟩

/-- C8: `savings_opportunities` emits exactly one duplicate-category
opportunity per category with more than one member (none otherwise), and
that opportunity lists all member descriptions and their summed monthly
cost. -/
theorem c8_duplicate_category (df : List SubRow) (c : String) :
    ((savingsOpportunities df).countP (isDupFor c) =
      if 1 < (categoryGroup df c).length then 1 else 0)
    ∧ ∀ subs mc,
        Opportunity.duplicateCategory c subs mc ∈ savingsOpportunities df →
        subs = (categoryGroup df c).map (fun s => s.description) ∧
          mc = ((categoryGroup df c).map (fun s => s.monthly_cost)).sum := by
  constructor
  · unfold savingsOpportunities
    rw [List.countP_append]
    have hann : ((df.filter (fun s => decide (s.frequency = "monthly"))).filterMap
        (fun s =>
          if 20 < s.monthly_cost * 12 * (15 / 100) then
            some (Opportunity.annualDiscount s.description s.monthly_cost
              (s.monthly_cost * 12 * (15 / 100)))
          else none)).countP (isDupFor c) = 0 := by
      rw [List.countP_eq_zero]
      intro o ho
      obtain ⟨s, _, hif⟩ := List.mem_filterMap.mp ho
      split_ifs at hif with h20
      rw [← Option.some_inj.mp hif]
      simp [isDupFor]
    rw [hann, List.countP_map]
    have hcomp : (isDupFor c ∘ fun c' => Opportunity.duplicateCategory c'
          ((categoryGroup df c').map (fun s => s.description))
          (((categoryGroup df c').map (fun s => s.monthly_cost)).sum)) =
        fun c' => decide (c' = c) := rfl
    rw [hcomp]
    have hnd : ((categoryKeys df).filter
        (fun c' => decide (1 < (categoryGroup df c').length))).Nodup :=
      (nodup_distinctKeys _ _ _).filter _
    rw [countP_key_nodup _ hnd c]
    have hiff : c ∈ (categoryKeys df).filter
        (fun c' => decide (1 < (categoryGroup df c').length)) ↔
        1 < (categoryGroup df c).length := by
      rw [List.mem_filter]
      constructor
      · intro h
        simpa using h.2
      · intro h
        exact ⟨mem_categoryKeys_of_group (by omega), by simpa using h⟩
    rw [if_congr hiff rfl rfl]
    simp
  · intro subs mc hmem
    rcases List.mem_append.mp hmem with hdup | hann
    · obtain ⟨c', _, heq⟩ := List.mem_map.mp hdup
      obtain ⟨h1, h2, h3⟩ := Opportunity.duplicateCategory.inj heq
      subst h1
      exact ⟨h2.symm, h3.symm⟩
    · obtain ⟨s, _, hif⟩ := List.mem_filterMap.mp hann
      split_ifs at hif with h20
      exact absurd (Option.some_inj.mp hif) (by simp)

/-- First-match behaviour of the categorization loop. -/
theorem categorizeAux_first (d : String) :
    ∀ (l : List (String × List String)) (i : ℕ), i < l.length →
      kwAny d (l.getD i ("", [])).2 = true →
      (∀ j, j < i → kwAny d (l.getD j ("", [])).2 = false) →
      categorizeAux d l = (l.getD i ("", [])).1
  | [], i, h, _, _ => absurd h (by simp)
  | (c, kws) :: rest, 0, _, hm, _ => by
      simp only [List.getD_cons_zero] at hm ⊢
      simp [categorizeAux, hm]
  | (c, kws) :: rest, i + 1, h, hm, hj => by
      have h0 : kwAny d kws = false := by
        have := hj 0 (by omega)
        simpa using this
      have hrec := categorizeAux_first d rest i (by simpa using h)
        (by simpa using hm)
        (fun j hji => by
          have := hj (j + 1) (by omega)
          simpa using this)
      simp only [categorizeAux, h0]
      simpa using hrec

/-- Default behaviour of the categorization loop when nothing matches. -/
theorem categorizeAux_none (d : String) :
    ∀ l : List (String × List String),
      (∀ p ∈ l, kwAny d p.2 = false) → categorizeAux d l = "other"
  | [], _ => rfl
  | (c, kws) :: rest, h => by
      have h0 := h (c, kws) (List.mem_cons_self _ _)
      simp only at h0
      have hrest := categorizeAux_none d rest
        (fun p hp => h p (List.mem_cons_of_mem _ hp))
      simp [categorizeAux, h0, hrest]

/-- C6: `_categorize_subscription` returns the first category, in
declaration order of the mapping, with a keyword contained in the
lower-cased description; `"other"` when nothing matches; and it is
deterministic. -/
theorem c6_categorization (desc : String) :
    (∀ i, i < categoriesList.length →
      kwAny desc.toLower (categoriesList.getD i ("", [])).2 = true →
      (∀ j, j < i →
        kwAny desc.toLower (categoriesList.getD j ("", [])).2 = false) →
      categorizeSubscription desc = (categoriesList.getD i ("", [])).1)
    ∧ ((∀ p ∈ categoriesList, kwAny desc.toLower p.2 = false) →
      categorizeSubscription desc = "other")
    ∧ categorizeSubscription desc = categorizeSubscription desc := by
  refine ⟨?_, ?_, rfl⟩
  · intro i h hm hj
    exact categorizeAux_first desc.toLower categoriesList i h hm hj
  · intro hnone
    exact categorizeAux_none desc.toLower categoriesList hnone

/-!
Section: C7: the pipeline mutates the caller's date column
-/

theorem normalizeDates_fields :
    ∀ {df nd : List RawTxn}, normalizeDates df = some nd →
      nd.map (fun t => t.description) = df.map (fun t => t.description) ∧
        nd.map (fun t => t.amount) = df.map (fun t => t.amount) := by
  intro df
  induction df with
  | nil =>
      intro nd h
      simp only [normalizeDates] at h
      rw [← Option.some_inj.mp h]
      exact ⟨rfl, rfl⟩
  | cons t r ih =>
      intro nd h
      simp only [normalizeDates] at h
      match hc : toDatetimeCell t.date, hr : normalizeDates r with
      | some cell, some rest =>
          rw [hc, hr] at h
          obtain ⟨ih1, ih2⟩ := ih hr
          rw [← Option.some_inj.mp h]
          simp only [List.map_cons]
          exact ⟨by rw [ih1], by rw [ih2]⟩
      | some _, none => rw [hc, hr] at h; exact absurd h (by simp)
      | none, some _ => rw [hc, hr] at h; exact absurd h (by simp)
      | none, none => rw [hc, hr] at h; exact absurd h (by simp)

theorem normalizeDates_of_dt :
    ∀ {df : List RawTxn}, (∀ t ∈ df, ∃ n, t.date = DateCell.dt n) →
      normalizeDates df = some df := by
  intro df
  induction df with
  | nil => intro _; rfl
  | cons t r ih =>
      intro h
      obtain ⟨n, hn⟩ := h t (List.mem_cons_self t r)
      have hcell : toDatetimeCell t.date = some t.date := by
        rw [hn]; rfl
      have hrest := ih (fun u hu => h u (List.mem_cons_of_mem t hu))
      simp only [normalizeDates, hcell, hrest]

/-- C7 counterexample: on a table whose date column holds a raw (string)
date, the pipeline returns a *different* table to the caller — the date
cell has been coerced in place to a datetime, so the input is not left
unchanged. -/
theorem c7_counterexample :
    (detectSubscriptionsRaw
        [{ date := DateCell.raw "2023-01-01", description := "netflix",
           amount := 10 }]).map Prod.fst ≠
      some [{ date := DateCell.raw "2023-01-01", description := "netflix",
              amount := 10 }] := by
  with_unfolding_all decide

/-- C7 (amended): `detect_subscriptions` coerces the input table's date
column in place via `to_datetime`; the description and amount columns are
unchanged, and a table whose dates are already datetimes is left entirely
unchanged. -/
theorem c7_amended_frame (df nd : List RawTxn)
    (res : Option (List SubRow))
    (h : detectSubscriptionsRaw df = some (nd, res)) :
    nd.map (fun t => t.description) = df.map (fun t => t.description) ∧
      nd.map (fun t => t.amount) = df.map (fun t => t.amount) ∧
      ((∀ t ∈ df, ∃ n, t.date = DateCell.dt n) → nd = df) := by
  unfold detectSubscriptionsRaw at h
  match hn : normalizeDates df with
  | none => rw [hn] at h; exact absurd h (by simp)
  | some nd' =>
      rw [hn] at h
      have hnd : nd' = nd := congrArg Prod.fst (Option.some_inj.mp h)
      subst hnd
      obtain ⟨h1, h2⟩ := normalizeDates_fields hn
      refine ⟨h1, h2, fun hdt => ?_⟩
      have := normalizeDates_of_dt hdt
      rw [this] at hn
      exact (Option.some_inj.mp hn).symm

/-!
Section: Concrete witnesses

Each witness instantiates its claim's theorem on a small concrete table and
discharges the hypotheses by evaluation.
-/

set_option maxRecDepth 20000

theorem c2_witness :
    ({ date := 61, description := "NETFLIX.COM", amount := 15,
       category := "streaming", monthly_cost := 15,
       frequency := "monthly", last_charge := 61 } : SubRow).frequency =
        "monthly" ∧
      ({ date := 61, description := "NETFLIX.COM", amount := 15,
         category := "streaming", monthly_cost := 15,
         frequency := "monthly", last_charge := 61 } : SubRow).monthly_cost =
        (lastTxn (sortByDate (candGroup
          [{ date := 0, description := "NETFLIX.COM", amount := 15 },
           { date := 31, description := "NETFLIX.COM", amount := 15 },
           { date := 61, description := "NETFLIX.COM", amount := 15 }]
          ({ date := 61, description := "NETFLIX.COM", amount := 15,
             category := "streaming", monthly_cost := 15,
             frequency := "monthly",
             last_charge := 61 } : SubRow).description))).amount :=
  (c2_monthly_cost
    [{ date := 0, description := "NETFLIX.COM", amount := 15 },
     { date := 31, description := "NETFLIX.COM", amount := 15 },
     { date := 61, description := "NETFLIX.COM", amount := 15 }]
    [{ date := 61, description := "NETFLIX.COM", amount := 15,
       category := "streaming", monthly_cost := 15,
       frequency := "monthly", last_charge := 61 }]
    { date := 61, description := "NETFLIX.COM", amount := 15,
      category := "streaming", monthly_cost := 15,
      frequency := "monthly", last_charge := 61 }
    (by with_unfolding_all decide) (by with_unfolding_all decide)
    (by with_unfolding_all decide)).1 (by with_unfolding_all decide)

theorem c3_witness :
    firstTxn (pairGroup
        [{ date := 0, description := "NETFLIX.COM", amount := 15 },
         { date := 31, description := "NETFLIX.COM", amount := 15 },
         { date := 61, description := "NETFLIX.COM", amount := 15 }]
        ("NETFLIX.COM", 15)) ∈
      findRecurringPatterns
        [{ date := 0, description := "NETFLIX.COM", amount := 15 },
         { date := 31, description := "NETFLIX.COM", amount := 15 },
         { date := 61, description := "NETFLIX.COM", amount := 15 }] :=
  ((c3_recurrence_analyzer
    [{ date := 0, description := "NETFLIX.COM", amount := 15 },
     { date := 31, description := "NETFLIX.COM", amount := 15 },
     { date := 61, description := "NETFLIX.COM", amount := 15 }]
    ("NETFLIX.COM", 15) (by with_unfolding_all decide)).1
    (by with_unfolding_all decide)).mpr (by with_unfolding_all decide)

theorem c4_witness :
    (([{ date := 61, description := "NETFLIX.COM", amount := 15,
         category := "streaming", monthly_cost := 15,
         frequency := "monthly",
         last_charge := 61 }] : List SubRow).map
      (fun r => r.description)).Nodup ∧
    ("NETFLIX.COM" ∈
        ([{ date := 61, description := "NETFLIX.COM", amount := 15,
            category := "streaming", monthly_cost := 15,
            frequency := "monthly",
            last_charge := 61 }] : List SubRow).map
          (fun r => r.description) ↔
      "NETFLIX.COM" ∈
        (findKeywordMatches
            [{ date := 0, description := "NETFLIX.COM", amount := 15 },
             { date := 31, description := "NETFLIX.COM", amount := 15 },
             { date := 61, description := "NETFLIX.COM", amount := 15 }] ++
          findRecurringPatterns
            [{ date := 0, description := "NETFLIX.COM", amount := 15 },
             { date := 31, description := "NETFLIX.COM", amount := 15 },
             { date := 61, description := "NETFLIX.COM", amount := 15 }]).map
          (fun t => t.description)) :=
  ⟨(c4_unique_descriptions
      [{ date := 0, description := "NETFLIX.COM", amount := 15 },
       { date := 31, description := "NETFLIX.COM", amount := 15 },
       { date := 61, description := "NETFLIX.COM", amount := 15 }]
      [{ date := 61, description := "NETFLIX.COM", amount := 15,
         category := "streaming", monthly_cost := 15,
         frequency := "monthly", last_charge := 61 }]
      (by with_unfolding_all decide)).1,
   (c4_unique_descriptions
      [{ date := 0, description := "NETFLIX.COM", amount := 15 },
       { date := 31, description := "NETFLIX.COM", amount := 15 },
       { date := 61, description := "NETFLIX.COM", amount := 15 }]
      [{ date := 61, description := "NETFLIX.COM", amount := 15,
         category := "streaming", monthly_cost := 15,
         frequency := "monthly", last_charge := 61 }]
      (by with_unfolding_all decide)).2 "NETFLIX.COM"⟩

theorem c5_witness :
    Opportunity.annualDiscount "gymbox" 50 (50 * 12 * (15 / 100)) ∈
      savingsOpportunities
        [{ date := 0, description := "gymbox", amount := 50,
           category := "fitness", monthly_cost := 50,
           frequency := "monthly", last_charge := 0 }] :=
  (c5_annual_discount
    [{ date := 0, description := "gymbox", amount := 50,
       category := "fitness", monthly_cost := 50,
       frequency := "monthly", last_charge := 0 }]).1
    { date := 0, description := "gymbox", amount := 50,
      category := "fitness", monthly_cost := 50,
      frequency := "monthly", last_charge := 0 }
    (by with_unfolding_all decide) (by with_unfolding_all decide)
    (by with_unfolding_all decide)

theorem c6_witness :
    categorizeSubscription "Apple Music via Microsoft" = "music" :=
  ((c6_categorization "Apple Music via Microsoft").1 1
    (by with_unfolding_all decide) (by with_unfolding_all decide)
    (fun j hji => by
      have hj0 : j = 0 := by omega
      subst hj0
      with_unfolding_all decide)).trans (by with_unfolding_all decide)

theorem c7_amended_witness :
    ([{ date := DateCell.dt 0, description := "netflix",
        amount := 10 }] : List RawTxn) =
      [{ date := DateCell.dt 0, description := "netflix", amount := 10 }] :=
  (c7_amended_frame
    [{ date := DateCell.dt 0, description := "netflix", amount := 10 }]
    [{ date := DateCell.dt 0, description := "netflix", amount := 10 }]
    (some [{ date := 0, description := "netflix", amount := 10,
             category := "streaming", monthly_cost := 10,
             frequency := "unknown", last_charge := 0 }])
    (by with_unfolding_all decide)).2.2
    (by
      intro t ht
      rw [List.mem_singleton] at ht
      subst ht
      exact ⟨0, rfl⟩)

theorem c8_witness :
    ((savingsOpportunities
        [{ date := 0, description := "netflix sub", amount := 15,
           category := "streaming", monthly_cost := 15,
           frequency := "monthly", last_charge := 0 },
         { date := 0, description := "hulu plus", amount := 10,
           category := "streaming", monthly_cost := 10,
           frequency := "monthly", last_charge := 0 }]).countP
      (isDupFor "streaming") =
      if 1 < (categoryGroup
          [{ date := 0, description := "netflix sub", amount := 15,
             category := "streaming", monthly_cost := 15,
             frequency := "monthly", last_charge := 0 },
           { date := 0, description := "hulu plus", amount := 10,
             category := "streaming", monthly_cost := 10,
             frequency := "monthly", last_charge := 0 }] "streaming").length
      then 1 else 0)
    ∧ (["netflix sub", "hulu plus"] =
        (categoryGroup
          [{ date := 0, description := "netflix sub", amount := 15,
             category := "streaming", monthly_cost := 15,
             frequency := "monthly", last_charge := 0 },
           { date := 0, description := "hulu plus", amount := 10,
             category := "streaming", monthly_cost := 10,
             frequency := "monthly", last_charge := 0 }] "streaming").map
          (fun s => s.description) ∧
      (25 : ℚ) =
        ((categoryGroup
          [{ date := 0, description := "netflix sub", amount := 15,
             category := "streaming", monthly_cost := 15,
             frequency := "monthly", last_charge := 0 },
           { date := 0, description := "hulu plus", amount := 10,
             category := "streaming", monthly_cost := 10,
             frequency := "monthly", last_charge := 0 }] "streaming").map
          (fun s => s.monthly_cost)).sum) :=
  ⟨(c8_duplicate_category
      [{ date := 0, description := "netflix sub", amount := 15,
         category := "streaming", monthly_cost := 15,
         frequency := "monthly", last_charge := 0 },
       { date := 0, description := "hulu plus", amount := 10,
         category := "streaming", monthly_cost := 10,
         frequency := "monthly", last_charge := 0 }] "streaming").1,
   (c8_duplicate_category
      [{ date := 0, description := "netflix sub", amount := 15,
         category := "streaming", monthly_cost := 15,
         frequency := "monthly", last_charge := 0 },
       { date := 0, description := "hulu plus", amount := 10,
         category := "streaming", monthly_cost := 10,
         frequency := "monthly", last_charge := 0 }] "streaming").2
      ["netflix sub", "hulu plus"] 25 (by with_unfolding_all decide)⟩

theorem c9_witness :
    ({ date := 0, description := "DOMAIN REGISTRATION", amount := 120,
       category := "other", monthly_cost := 120, frequency := "unknown",
       last_charge := 0 } : SubRow).frequency = "unknown" ∧
      ({ date := 0, description := "DOMAIN REGISTRATION", amount := 120,
         category := "other", monthly_cost := 120, frequency := "unknown",
         last_charge := 0 } : SubRow).monthly_cost =
        ({ date := 0, description := "DOMAIN REGISTRATION",
           amount := 120 } : Txn).amount ∧
      ({ date := 0, description := "DOMAIN REGISTRATION", amount := 120,
         category := "other", monthly_cost := 120, frequency := "unknown",
         last_charge := 0 } : SubRow).last_charge =
        ({ date := 0, description := "DOMAIN REGISTRATION",
           amount := 120 } : Txn).date :=
  c9_single_occurrence
    [{ date := 0, description := "DOMAIN REGISTRATION", amount := 120 }]
    [{ date := 0, description := "DOMAIN REGISTRATION", amount := 120,
       category := "other", monthly_cost := 120, frequency := "unknown",
       last_charge := 0 }]
    { date := 0, description := "DOMAIN REGISTRATION", amount := 120,
      category := "other", monthly_cost := 120, frequency := "unknown",
      last_charge := 0 }
    { date := 0, description := "DOMAIN REGISTRATION", amount := 120 }
    (by with_unfolding_all decide) (by with_unfolding_all decide)
    (by with_unfolding_all decide)

theorem c10_witness :
    ({ date := 61, description := "NETFLIX.COM", amount := 15,
       category := "streaming", monthly_cost := 15,
       frequency := "monthly", last_charge := 61 } : SubRow).frequency =
        "monthly" ∨
    ({ date := 61, description := "NETFLIX.COM", amount := 15,
       category := "streaming", monthly_cost := 15,
       frequency := "monthly", last_charge := 61 } : SubRow).frequency =
        "annual" ∨
    ({ date := 61, description := "NETFLIX.COM", amount := 15,
       category := "streaming", monthly_cost := 15,
       frequency := "monthly", last_charge := 61 } : SubRow).frequency =
        "unknown" ∨
    ∃ n : ℤ,
      ({ date := 61, description := "NETFLIX.COM", amount := 15,
         category := "streaming", monthly_cost := 15,
         frequency := "monthly", last_charge := 61 } : SubRow).frequency =
        "every " ++ toString n ++ " days" :=
  c10_frequency_enum
    [{ date := 0, description := "NETFLIX.COM", amount := 15 },
     { date := 31, description := "NETFLIX.COM", amount := 15 },
     { date := 61, description := "NETFLIX.COM", amount := 15 }]
    [{ date := 61, description := "NETFLIX.COM", amount := 15,
       category := "streaming", monthly_cost := 15,
       frequency := "monthly", last_charge := 61 }]
    (by with_unfolding_all decide)
    { date := 61, description := "NETFLIX.COM", amount := 15,
      category := "streaming", monthly_cost := 15,
      frequency := "monthly", last_charge := 61 }
    (by with_unfolding_all decide)

end SubSaver
